import Mathlib

/-!
Verification of the AI Misinformation Toolkit prototype (src/app.py).

The program is a single Streamlit page: it resolves the credential
GEMINI_API_KEY once at startup (secret store first, then the environment),
decides between live mode and mock mode, builds three prompts from the
user's pasted text and sends each through `call_gemini`, rendering the
three resulting strings.

The embedding below models:
  - the startup configuration (`Config`, `apiKey`, `USE_MOCK`);
  - the external SDK call as an explicit transport function returning
    either a response value or a raised exception's message (`Transport`);
  - the response object shape that `call_gemini` inspects (`GenResponse`);
  - `call_gemini`, the three prompt builders and the Analyze button
    handler (`analyze`), which also records the list of gateway
    invocations (prompt, max_tokens) the handler performs.
-/

namespace MisinfoToolkit

/-- Python whitespace characters recognised by `str.strip()` (ASCII set). -/
def isPySpace (c : Char) : Bool :=
  c = ' ' || c = '\t' || c = '\n' || c = '\r' || c = '\x0b' || c = '\x0c'

/-- Embedding of Python `s.strip()`: drop whitespace from both ends. -/
def pyStrip (s : String) : String :=
  String.mk (((s.data.dropWhile isPySpace).reverse.dropWhile isPySpace).reverse)

/-- Startup configuration: `secrets` is the value of `GEMINI_API_KEY` in
`st.secrets` when that key is present, `env` the value of the environment
variable `GEMINI_API_KEY` when set, and `genaiAvailable` records whether
`import google.generativeai` succeeded. -/
structure Config where
  secrets : Option String
  env : Option String
  genaiAvailable : Bool

/-- Credential resolution (src/app.py lines 20-24): the secret store is
consulted first; only when the key is absent there is the environment
variable read. -/
def apiKey (cfg : Config) : Option String :=
  match cfg.secrets with
  | some v => some v
  | none => cfg.env

/-- Python truthiness of the resolved key: `None` and the empty string are
falsy. -/
def truthyKey : Option String → Bool
  | none => false
  | some s => !s.isEmpty

/-- Mode decision (src/app.py lines 26-28): `USE_MOCK = True` iff
`not api_key or not GENAI_AVAILABLE`. -/
def USE_MOCK (cfg : Config) : Bool :=
  !truthyKey (apiKey cfg) || !cfg.genaiAvailable

/-- One candidate object of the structured response shape. -/
structure Candidate where
  content : String
deriving DecidableEq

/-- The response object `call_gemini` inspects: `text` is `some t` iff the
object has a `text` attribute (value `t`), `candidates` is `some cs` iff it
has a `candidates` attribute (value `cs`), and `str` is the result of
Python `str(resp)`. -/
structure GenResponse where
  text : Option String
  candidates : Option (List Candidate)
  str : String
deriving DecidableEq

/-- The external generation endpoint: given a prompt and the max-token
hint it either returns a response object (`Except.ok`) or raises an
exception whose message is the `Except.error` payload. -/
def Transport : Type :=
  String → Nat → Except String GenResponse

/-- The fixed placeholder returned in mock mode (src/app.py lines 50-52). -/
def MOCK_RESPONSE : String :=
  "[MOCK RESPONSE — no API key detected]\n\nThis is a placeholder. Add your Gemini API key in .streamlit/secrets.toml or as env var GEMINI_API_KEY to get live results."

/-- Response-shape extraction (src/app.py lines 56-61): prefer the direct
`text` attribute, else the first candidate's `content` when the
`candidates` attribute holds a non-empty list, else `str(resp)`. -/
def extractText (r : GenResponse) : String :=
  match r.text with
  | some t => t
  | none =>
    match r.candidates with
    | some (c :: _) => c.content
    | _ => r.str

/-- `call_gemini` (src/app.py lines 44-63): in mock mode return the fixed
placeholder; otherwise call the endpoint, extract the text, and convert
any raised exception into the inline error string. -/
def call_gemini (cfg : Config) (T : Transport) (prompt : String)
    (maxTokens : Nat := 300) : String :=
  if USE_MOCK cfg then
    MOCK_RESPONSE
  else
    match T prompt maxTokens with
    | Except.ok resp => extractText resp
    | Except.error e => "[ERROR calling Gemini API] " ++ e

/-- Prompt template for the red-flag section (src/app.py lines 65-73). -/
def redFlagsPrompt (text : String) : String :=
  "You are an assistant that identifies indicators of misinformation in text. " ++
  "Given the following text, return a bulleted list of 'red flags'. For each flag include: " ++
  "1) Quote or short excerpt, 2) the type of problem (e.g., emotional appeal, no source, sensational claim, cherry-picking, misleading statistic, poor sourcing), " ++
  "3) a one-line explanation. Use short bullet points.\n\n" ++
  "TEXT:\n'''" ++ text ++ "'''\n\n" ++
  "Format strictly as bullets."

/-- Prompt template for the summary section (src/app.py lines 76-81). -/
def summaryPrompt (text : String) : String :=
  "You are a neutral summarizer. Read the text and provide a concise, factual, neutral summary (2-4 sentences). " ++
  "Do not add opinions and avoid speculative language. If the input contains claims that are verifiable, indicate them as 'Claim: ...' and mark 'Verified/Unverified/Unknown' if possible.\n\n" ++
  "TEXT:\n'''" ++ text ++ "'''"

/-- Prompt template for the insights section (src/app.py lines 84-89). -/
def insightsPrompt (text : String) : String :=
  "You are an educational assistant. For the provided text, list 2-4 misinformation tactics used (e.g., cherry-picking, appeal to emotion, false cause), " ++
  "and for each tactic give a two-sentence plain-language explanation and an example suggestion for how a user can check or verify such a tactic.\n\n" ++
  "TEXT:\n'''" ++ text ++ "'''"

/-- `generate_red_flags` (src/app.py line 74): build the prompt and call
the gateway with `max_tokens=280`. -/
def generate_red_flags (cfg : Config) (T : Transport) (text : String) : String :=
  call_gemini cfg T (redFlagsPrompt text) 280

/-- `generate_summary` (src/app.py line 82): `max_tokens=200`. -/
def generate_summary (cfg : Config) (T : Transport) (text : String) : String :=
  call_gemini cfg T (summaryPrompt text) 200

/-- `generate_insights` (src/app.py line 90): `max_tokens=300`. -/
def generate_insights (cfg : Config) (T : Transport) (text : String) : String :=
  call_gemini cfg T (insightsPrompt text) 300

/-- What the Analyze handler renders: either the warning for blank input
or the three section strings. -/
inductive Outcome where
  | warning : Outcome
  | rendered : String → String → String → Outcome
deriving DecidableEq

/-- The Analyze button handler (src/app.py lines 92-110): on blank input a
warning and nothing else; otherwise the three generator calls in order.
The second component is the trace of gateway invocations performed,
each recorded as (prompt, max_tokens). -/
def analyze (cfg : Config) (T : Transport) (input : String) :
    Outcome × List (String × Nat) :=
  if pyStrip input = "" then
    (Outcome.warning, [])
  else
    (Outcome.rendered
       (generate_red_flags cfg T input)
       (generate_summary cfg T input)
       (generate_insights cfg T input),
     [(redFlagsPrompt input, 280), (summaryPrompt input, 200),
      (insightsPrompt input, 300)])

/-- Fixed text preceding the input inside the red-flags prompt. -/
def redFlagsPre : String :=
  "You are an assistant that identifies indicators of misinformation in text. " ++
  "Given the following text, return a bulleted list of 'red flags'. For each flag include: " ++
  "1) Quote or short excerpt, 2) the type of problem (e.g., emotional appeal, no source, sensational claim, cherry-picking, misleading statistic, poor sourcing), " ++
  "3) a one-line explanation. Use short bullet points.\n\n" ++
  "TEXT:\n'''"

/-- Fixed text following the input inside the red-flags prompt. -/
def redFlagsPost : String :=
  "'''\n\n" ++ "Format strictly as bullets."

/-- Fixed text preceding the input inside the summary prompt. -/
def summaryPre : String :=
  "You are a neutral summarizer. Read the text and provide a concise, factual, neutral summary (2-4 sentences). " ++
  "Do not add opinions and avoid speculative language. If the input contains claims that are verifiable, indicate them as 'Claim: ...' and mark 'Verified/Unverified/Unknown' if possible.\n\n" ++
  "TEXT:\n'''"

/-- Fixed text following the input inside the summary prompt. -/
def summaryPost : String := "'''"

/-- Fixed text preceding the input inside the insights prompt. -/
def insightsPre : String :=
  "You are an educational assistant. For the provided text, list 2-4 misinformation tactics used (e.g., cherry-picking, appeal to emotion, false cause), " ++
  "and for each tactic give a two-sentence plain-language explanation and an example suggestion for how a user can check or verify such a tactic.\n\n" ++
  "TEXT:\n'''"

/-- Fixed text following the input inside the insights prompt. -/
def insightsPost : String := "'''"

/-- Configuration with no credential anywhere and the SDK importable. -/
def noKeyCfg : Config := ⟨none, none, true⟩

/-- Configuration with a non-empty secret-store key and the SDK importable. -/
def liveCfg : Config := ⟨some "k", none, true⟩

/-- Transport that raises on every call, with the given message. -/
def constErrTransport (msg : String) : Transport :=
  fun _ _ => Except.error msg

/-- Transport that returns the given response object on every call. -/
def constOkTransport (r : GenResponse) : Transport :=
  fun _ _ => Except.ok r

/-- Transport answering each section by its max-token hint: 280 gets `a`,
200 gets `b`, anything else gets `c`. -/
def sectionTransport (a b c : Except String GenResponse) : Transport :=
  fun _ mt => if mt = 280 then a else if mt = 200 then b else c

/-- Associativity of string concatenation, via the underlying char lists. -/
theorem strAppend_assoc (a b c : String) : a ++ b ++ c = a ++ (b ++ c) := by
  apply String.ext
  simp

/-- A string all of whose characters are Python whitespace strips to the
empty string. -/
theorem pyStrip_eq_empty (s : String) (h : ∀ c ∈ s.data, isPySpace c = true) :
    pyStrip s = "" := by
  unfold pyStrip
  have h1 : s.data.dropWhile isPySpace = [] :=
    List.dropWhile_eq_nil_iff.mpr (fun x hx => h x hx)
  rw [h1]
  rfl

/-- Appending the empty string on the right is the identity. -/
theorem strAppend_empty (s : String) : s ++ "" = s := by
  apply String.ext
  simp

/-- Response object whose direct `text` attribute is present. -/
def directTextResp : GenResponse := ⟨some "hello", none, "raw"⟩

/-- Response object with no `text` attribute and an empty candidate list. -/
def emptyCandResp : GenResponse := ⟨none, some [], "raw"⟩

/-- Response object carrying one candidate and no direct text. -/
def okResp2 : GenResponse := ⟨none, some [⟨"c2"⟩], "raw2"⟩

/-- Response object with a direct text attribute, used for the third
section. -/
def okResp3 : GenResponse := ⟨some "t3", none, "raw3"⟩

/-- Transport that fails the red-flags call (max-token hint 280) and
answers the other two sections normally. -/
def failRedTransport : Transport :=
  sectionTransport (Except.error "boom") (Except.ok okResp2) (Except.ok okResp3)

/-- C1: for every non-empty input text, in mock mode each of the three
analysis outputs equals the fixed mock placeholder string verbatim,
regardless of the prompt content or the max_tokens argument. -/
theorem mock_mode_outputs_fixed (cfg : Config) (T : Transport)
    (hm : USE_MOCK cfg = true) :
    (∀ p mt, call_gemini cfg T p mt = MOCK_RESPONSE) ∧
    (∀ input, pyStrip input ≠ "" →
      (analyze cfg T input).fst =
        Outcome.rendered MOCK_RESPONSE MOCK_RESPONSE MOCK_RESPONSE) := by
  constructor
  · intro p mt
    simp [call_gemini, hm]
  · intro input hne
    simp [analyze, hne, generate_red_flags, generate_summary, generate_insights,
      call_gemini, hm]

/-- Witness for C1 at a concrete configuration, transport and input. -/
theorem mock_mode_outputs_fixed_witness :
    USE_MOCK noKeyCfg = true ∧ pyStrip "x" ≠ "" ∧
    (analyze noKeyCfg (constErrTransport "boom") "x").fst =
      Outcome.rendered MOCK_RESPONSE MOCK_RESPONSE MOCK_RESPONSE :=
  ⟨rfl, by decide,
   (mock_mode_outputs_fixed noKeyCfg (constErrTransport "boom") rfl).2 "x"
     (by decide)⟩

/-- C2: if the external call raises, `call_gemini` does not propagate the
exception but returns the error-tagged string: it equals the tag plus the
message, starts with the tag, and contains the message. -/
theorem call_gemini_exception_fail_soft (cfg : Config) (T : Transport)
    (p : String) (mt : Nat) (e : String)
    (hm : USE_MOCK cfg = false) (he : T p mt = Except.error e) :
    call_gemini cfg T p mt = "[ERROR calling Gemini API] " ++ e ∧
    (∃ rest, call_gemini cfg T p mt = "[ERROR calling Gemini API]" ++ rest) ∧
    (∃ pre post, call_gemini cfg T p mt = pre ++ e ++ post) := by
  have hres : call_gemini cfg T p mt = "[ERROR calling Gemini API] " ++ e := by
    simp [call_gemini, hm, he]
  refine ⟨hres, ⟨" " ++ e, ?_⟩, ⟨"[ERROR calling Gemini API] ", "", ?_⟩⟩
  · rw [hres, ← strAppend_assoc]
    congr 1
  · rw [hres, strAppend_assoc, strAppend_empty]

/-- Witness for C2 at a concrete configuration, transport and prompt. -/
theorem call_gemini_exception_fail_soft_witness :
    USE_MOCK liveCfg = false ∧
    constErrTransport "boom" "p" 42 = Except.error "boom" ∧
    call_gemini liveCfg (constErrTransport "boom") "p" 42 =
      "[ERROR calling Gemini API] " ++ "boom" :=
  ⟨by decide, rfl,
   (call_gemini_exception_fail_soft liveCfg (constErrTransport "boom") "p" 42
     "boom" (by decide) rfl).1⟩

/-- C3: in live mode, when the endpoint returns without raising,
`call_gemini` returns the direct text field unmodified when present;
otherwise the first candidate's content when a non-empty candidates list
is present; otherwise the string conversion of the raw response. -/
theorem call_gemini_live_extraction (cfg : Config) (T : Transport)
    (p : String) (mt : Nat) (r : GenResponse)
    (hm : USE_MOCK cfg = false) (hr : T p mt = Except.ok r) :
    (∀ t, r.text = some t → call_gemini cfg T p mt = t) ∧
    (∀ c cs, r.text = none → r.candidates = some (c :: cs) →
      call_gemini cfg T p mt = c.content) ∧
    (r.text = none → r.candidates = none ∨ r.candidates = some [] →
      call_gemini cfg T p mt = r.str) := by
  have hres : call_gemini cfg T p mt = extractText r := by
    simp [call_gemini, hm, hr]
  refine ⟨?_, ?_, ?_⟩
  · intro t ht
    rw [hres]
    simp [extractText, ht]
  · intro c cs ht hc
    rw [hres]
    simp [extractText, ht, hc]
  · intro ht hc
    rw [hres]
    rcases hc with hc | hc <;> simp [extractText, ht, hc]

/-- Witness for C3 at a concrete response with a direct text field. -/
theorem call_gemini_live_extraction_witness :
    USE_MOCK liveCfg = false ∧
    constOkTransport directTextResp "p" 300 = Except.ok directTextResp ∧
    call_gemini liveCfg (constOkTransport directTextResp) "p" 300 = "hello" :=
  ⟨by decide, rfl,
   (call_gemini_live_extraction liveCfg (constOkTransport directTextResp) "p"
     300 directTextResp (by decide) rfl).1 "hello" rfl⟩

/-- C4: for every input that is empty or consists only of whitespace,
pressing Analyze performs no gateway call (the invocation trace is empty,
so no prompt is built or sent) and the only outcome is the warning. -/
theorem analyze_blank_input (cfg : Config) (T : Transport) (input : String)
    (h : ∀ c ∈ input.data, isPySpace c = true) :
    analyze cfg T input = (Outcome.warning, []) := by
  have hs := pyStrip_eq_empty input h
  simp [analyze, hs]

/-- Witness for C4 at a whitespace-only input. -/
theorem analyze_blank_input_witness :
    (∀ c ∈ (" \t\n" : String).data, isPySpace c = true) ∧
    analyze noKeyCfg (constErrTransport "boom") " \t\n" =
      (Outcome.warning, []) :=
  ⟨by decide,
   analyze_blank_input noKeyCfg (constErrTransport "boom") " \t\n" (by decide)⟩

/-- C5: for non-empty input, a raised exception in any one of the three
gateway calls replaces only that section's output with the error-tagged
string; the other two sections still receive their normally extracted
results. -/
theorem analyze_section_failure_isolated (cfg : Config) (T : Transport)
    (input : String) (hm : USE_MOCK cfg = false) (hne : pyStrip input ≠ "") :
    (∀ e r₂ r₃, T (redFlagsPrompt input) 280 = Except.error e →
       T (summaryPrompt input) 200 = Except.ok r₂ →
       T (insightsPrompt input) 300 = Except.ok r₃ →
       (analyze cfg T input).fst =
         Outcome.rendered ("[ERROR calling Gemini API] " ++ e)
           (extractText r₂) (extractText r₃)) ∧
    (∀ r₁ e r₃, T (redFlagsPrompt input) 280 = Except.ok r₁ →
       T (summaryPrompt input) 200 = Except.error e →
       T (insightsPrompt input) 300 = Except.ok r₃ →
       (analyze cfg T input).fst =
         Outcome.rendered (extractText r₁)
           ("[ERROR calling Gemini API] " ++ e) (extractText r₃)) ∧
    (∀ r₁ r₂ e, T (redFlagsPrompt input) 280 = Except.ok r₁ →
       T (summaryPrompt input) 200 = Except.ok r₂ →
       T (insightsPrompt input) 300 = Except.error e →
       (analyze cfg T input).fst =
         Outcome.rendered (extractText r₁) (extractText r₂)
           ("[ERROR calling Gemini API] " ++ e)) := by
  refine ⟨?_, ?_, ?_⟩ <;> intro a b c h1 h2 h3 <;>
    simp [analyze, hne, generate_red_flags, generate_summary,
      generate_insights, call_gemini, hm, h1, h2, h3]

/-- Witness for C5: the red-flags call fails, the other two succeed. -/
theorem analyze_section_failure_isolated_witness :
    USE_MOCK liveCfg = false ∧ pyStrip "x" ≠ "" ∧
    (analyze liveCfg failRedTransport "x").fst =
      Outcome.rendered ("[ERROR calling Gemini API] " ++ "boom")
        (extractText okResp2) (extractText okResp3) :=
  ⟨by decide, by decide,
   (analyze_section_failure_isolated liveCfg failRedTransport "x" (by decide)
     (by decide)).1 "boom" okResp2 okResp3 rfl rfl rfl⟩

/-- C6: the credential is resolved with the secret store first, then the
environment variable, and when neither provides a value the program
selects mock mode. -/
theorem credential_resolution :
    (∀ v env g, apiKey ⟨some v, env, g⟩ = some v) ∧
    (∀ env g, apiKey ⟨none, env, g⟩ = env) ∧
    (∀ g, USE_MOCK ⟨none, none, g⟩ = true) :=
  ⟨fun _ _ _ => rfl, fun _ _ => rfl, fun _ => rfl⟩

/-- C7: each prompt builder places the input text verbatim between two
fixed strings, so repeated calls yield the identical prompt and the prompt
contains the input as a substring with no escaping or truncation. -/
theorem prompt_builders_contain_input (t : String) :
    redFlagsPrompt t = redFlagsPre ++ t ++ redFlagsPost ∧
    summaryPrompt t = summaryPre ++ t ++ summaryPost ∧
    insightsPrompt t = insightsPre ++ t ++ insightsPost := by
  refine ⟨?_, ?_, ?_⟩ <;>
    simp [redFlagsPrompt, redFlagsPre, redFlagsPost, summaryPrompt,
      summaryPre, summaryPost, insightsPrompt, insightsPre, insightsPost,
      strAppend_assoc]

/-- C8: if the SDK import fails, the gateway operates in mock mode no
matter what credential is configured. -/
theorem sdk_import_failure_forces_mock :
    ∀ secrets env : Option String, USE_MOCK ⟨secrets, env, false⟩ = true := by
  intro s e
  simp [USE_MOCK]

/-- C9: in live mode, a response with no direct text field and an empty
candidates list is handled without indexing into the list: `call_gemini`
returns the string conversion of the raw response. -/
theorem empty_candidates_no_index (cfg : Config) (T : Transport)
    (p : String) (mt : Nat) (r : GenResponse)
    (hm : USE_MOCK cfg = false) (hr : T p mt = Except.ok r)
    (ht : r.text = none) (hc : r.candidates = some []) :
    call_gemini cfg T p mt = r.str := by
  simp [call_gemini, hm, hr, extractText, ht, hc]

/-- Witness for C9 at a concrete empty-candidates response. -/
theorem empty_candidates_no_index_witness :
    USE_MOCK liveCfg = false ∧
    constOkTransport emptyCandResp "p" 7 = Except.ok emptyCandResp ∧
    call_gemini liveCfg (constOkTransport emptyCandResp) "p" 7 = "raw" :=
  ⟨by decide, rfl,
   empty_candidates_no_index liveCfg (constOkTransport emptyCandResp) "p" 7
     emptyCandResp (by decide) rfl rfl rfl⟩

/-- C10: for every non-empty input the three gateway calls carry the fixed
max-token hints 280, 200 and 300 in order, and `call_gemini` defaults to
300 when no limit is passed. -/
theorem section_token_limits (cfg : Config) (T : Transport) (input : String)
    (hne : pyStrip input ≠ "") :
    ((analyze cfg T input).snd.map Prod.snd = [280, 200, 300]) ∧
    (∀ p, call_gemini cfg T p = call_gemini cfg T p 300) := by
  constructor
  · simp [analyze, hne]
  · intro p
    rfl

/-- Witness for C10 at a concrete non-blank input. -/
theorem section_token_limits_witness :
    pyStrip "x" ≠ "" ∧
    (analyze noKeyCfg (constOkTransport directTextResp) "x").snd.map
      Prod.snd = [280, 200, 300] :=
  ⟨by decide,
   (section_token_limits noKeyCfg (constOkTransport directTextResp) "x"
     (by decide)).1⟩

end MisinfoToolkit
